import Mathlib

/-!
Shallow embedding of the LRZ (low-resolution Z) tracking logic of
src/freedreno/vulkan/tu_lrz.c.

The per-pass mutable record `struct tu_lrz_state` becomes `TuLrzState`,
passed and returned explicitly.  The per-draw decision engine
`tu6_calculate_lrz_state` becomes a pure function from the tracker state
and the draw-time pipeline configuration to the `A6XX_GRAS_LRZ_CNTL`
directive together with the updated tracker state.  Register bit packing
is out of scope; registers are kept as semantic records, and command-stream
emission is modelled as a list of `EmitCmd` values.
-/

namespace TuLrz

/-- VkCompareOp, in Vulkan enumeration order. -/
inductive VkCompareOp where
  | never
  | less
  | equal
  | less_or_equal
  | greater
  | not_equal
  | greater_or_equal
  | always
deriving DecidableEq, Repr

/-- enum tu_lrz_direction; memset-zero gives TU_LRZ_UNKNOWN. -/
inductive TuLrzDirection where
  | unknown
  | less
  | greater
deriving DecidableEq, Repr

/-- a6xx_lrz_dir_status values of GRAS_LRZ_CNTL.dir; `unset` is the zero value
of the zero-initialized register struct. -/
inductive LrzDir where
  | unset
  | le
  | ge
  | invalid
deriving DecidableEq, Repr

/-- Semantic fields of struct A6XX_GRAS_LRZ_CNTL (the per-draw directive).
Defaults give the `{ 0 }` zero initializer of the C code. -/
structure GrasLrzCntl where
  enable : Bool := false
  lrz_write : Bool := false
  z_test_enable : Bool := false
  z_bounds_enable : Bool := false
  fc_enable : Bool := false
  dir_write : Bool := false
  disable_on_wrong_dir : Bool := false
  greater : Bool := false
  dir : LrzDir := .unset
deriving DecidableEq, Repr

/-- The all-zero (empty) directive. -/
def GrasLrzCntl.zero : GrasLrzCntl := {}

/-- The image metadata consumed by the LRZ code: lrz_height = 0 means no
LRZ buffer, lrz_fc_size > 0 means the fast-clear buffer exists. -/
structure TuImage where
  lrz_height : Nat := 0
  lrz_fc_size : Nat := 0
deriving DecidableEq, Repr

/-- An image view: the image plus the packed GRAS_LRZ_DEPTH_VIEW identity. -/
structure TuImageView where
  image : TuImage := {}
  gras_lrz_depth_view : Nat := 0
deriving DecidableEq, Repr

/-- struct tu_lrz_state.  Defaults are the memset-zero state installed at
render-pass / secondary begin. -/
structure TuLrzState where
  valid : Bool := false
  prev_direction : TuLrzDirection := .unknown
  gpu_dir_tracking : Bool := false
  fast_clear : Bool := false
  reuse_previous_state : Bool := false
  image_view : Option TuImageView := none
  depth_clear_value : Rat := 0
  enabled : Bool := false
deriving DecidableEq, Repr

/-- One color attachment of the current subpass, as seen by the dynamic
color-write-mask check: number of format components and the
RB_MRT_CONTROL component-enable bits. -/
structure ColorAtt where
  components : Nat := 0
  component_enable : Nat := 0
deriving DecidableEq, Repr

/-- The draw-time inputs of tu6_calculate_lrz_state, read from
cmd->state / the bound pipeline. -/
structure LrzDrawInput where
  a_unused : Bool := false
  z_test_enable : Bool := false
  z_write_enable : Bool := false
  z_bounds_enable : Bool := false
  depth_compare_op : VkCompareOp := .less
  debug_nolrz : Bool := false
  has_attachments : Bool := true
  force_disable_write : Bool := false
  force_disable_lrz : Bool := false
  dyn_logic_op : Bool := false
  logic_op_enabled : Bool := false
  rop_reads_dst : Bool := false
  dyn_blend_enable : Bool := false
  blend_enable : Bool := false
  dyn_blend : Bool := false
  color_attachments : List (Option ColorAtt) := []
  dyn_color_write_enable : Bool := false
  color_write_enable : Nat := 0
  color_count : Nat := 0
  num_rts : Nat := 0
  stencil_test_enable : Bool := false
  stencil_front_compare_op : VkCompareOp := .always
  stencil_back_compare_op : VkCompareOp := .always
  stencil_front_write : Bool := false
  stencil_back_write : Bool := false
deriving DecidableEq, Repr

/-- tu6_stencil_op_lrz_allowed: may clear lrz_write and reports whether
LRZ testing remains allowed for this stencil face. -/
def tu6_stencil_op_lrz_allowed (g : GrasLrzCntl) (func : VkCompareOp)
    (stencil_write : Bool) : GrasLrzCntl × Bool :=
  match func with
  | .always =>
      if stencil_write = true then (g, false) else (g, true)
  | .never =>
      ({ g with lrz_write := false }, true)
  | _ =>
      let g := { g with lrz_write := false }
      if stencil_write = true then (g, false) else (g, true)

/-- The initial directive built at the top of the main path of
tu6_calculate_lrz_state. -/
def lrzInitialCntl (st : TuLrzState) (s : LrzDrawInput) : GrasLrzCntl :=
  { enable := true
    lrz_write := s.z_write_enable && !s.force_disable_write
    z_test_enable := s.z_write_enable
    z_bounds_enable := s.z_bounds_enable
    fc_enable := st.fast_clear
    dir_write := st.gpu_dir_tracking
    disable_on_wrong_dir := st.gpu_dir_tracking
    greater := false
    dir := .unset }

/-- Whether a color attachment of the subpass has an incomplete dynamic
color write mask (RB_MRT_CONTROL component enable differs from the full
mask of the full component mask of the format). -/
def colorMaskIncomplete : Option ColorAtt → Bool
  | none => false
  | some c => c.component_enable != 2 ^ c.components - 1

/-- The four draw-time rules that force lrz_write off: dynamic
destination-reading logic op, dynamic blending, incomplete dynamic color
write mask, and dynamic color-write-enable mismatch. -/
def applyLrzWriteDynamicRules (g : GrasLrzCntl) (s : LrzDrawInput) : GrasLrzCntl :=
  let g := if s.dyn_logic_op = true ∧ s.logic_op_enabled = true ∧ s.rop_reads_dst = true
           then { g with lrz_write := false } else g
  let g := if s.dyn_blend_enable = true ∧ s.blend_enable = true
           then { g with lrz_write := false } else g
  let g := if s.dyn_blend = true ∧ s.color_attachments.any colorMaskIncomplete = true
           then { g with lrz_write := false } else g
  let g := if s.dyn_color_write_enable = true ∧
              (s.color_write_enable &&& (2 ^ s.color_count - 1)) ≠ (2 ^ s.num_rts - 1)
           then { g with lrz_write := false } else g
  g

/-- The fragment-shader force-disable rule: returns (disable_lrz,
temporary_disable_lrz) as set by the TU_LRZ_FORCE_DISABLE_LRZ block. -/
def lrzFsFlags (st : TuLrzState) (s : LrzDrawInput) : Bool × Bool :=
  if s.force_disable_lrz = true then
    if st.prev_direction ≠ .unknown ∨ st.gpu_dir_tracking = false then
      (false, true)
    else
      (true, false)
  else
    (false, false)

/-- The candidate direction of a depth compare op (the lrz_direction local
of the compare-op switch). -/
def lrzDirectionOf : VkCompareOp → TuLrzDirection
  | .greater => .greater
  | .greater_or_equal => .greater
  | .less => .less
  | .less_or_equal => .less
  | _ => .unknown

/-- The compare-op switch of tu6_calculate_lrz_state: adjusts the directive
and the (disable, temporary-disable) flags. -/
def lrzOpAdjust (g : GrasLrzCntl) (op : VkCompareOp) (z_write : Bool)
    (d t : Bool) : GrasLrzCntl × Bool × Bool :=
  match op with
  | .always =>
      if z_write = true then ({ g with dir := .invalid }, true, t) else (g, d, true)
  | .not_equal =>
      if z_write = true then ({ g with dir := .invalid }, true, t) else (g, d, true)
  | .equal => (g, d, true)
  | .never => (g, d, true)
  | .greater => ({ g with greater := true, dir := .ge }, d, t)
  | .greater_or_equal => ({ g with greater := true, dir := .ge }, d, t)
  | .less => ({ g with greater := false, dir := .le }, d, t)
  | .less_or_equal => ({ g with greater := false, dir := .le }, d, t)

/-- The direction-reconciliation rule: recorded direction known, candidate
known, and differing. -/
def lrzDirMismatch (st : TuLrzState) (dir : TuLrzDirection) (z_write : Bool)
    (d t : Bool) : Bool × Bool :=
  if st.prev_direction ≠ .unknown ∧ dir ≠ .unknown ∧ st.prev_direction ≠ dir then
    if z_write = true then (true, t) else (d, true)
  else
    (d, t)

/-- The stencil interaction block, with the short-circuit of
`lrz_allowed && tu6_stencil_op_lrz_allowed(...)`: the back-face call (and
its lrz_write side effect) is skipped when the front face already
disallowed LRZ. -/
def lrzStencilAdjust (g : GrasLrzCntl) (s : LrzDrawInput) (d t : Bool) :
    GrasLrzCntl × Bool × Bool :=
  if d = false ∧ s.stencil_test_enable = true then
    let fr := tu6_stencil_op_lrz_allowed g s.stencil_front_compare_op
                s.stencil_front_write
    let bk := if fr.2 = true then
                tu6_stencil_op_lrz_allowed fr.1 s.stencil_back_compare_op
                  s.stencil_back_write
              else (fr.1, false)
    if bk.2 = false then
      if s.z_write_enable = true then (bk.1, true, t) else (bk.1, d, true)
    else
      (bk.1, d, t)
  else
    (g, d, t)

/-- The tail of tu6_calculate_lrz_state: commit the invalidation, build the
explicit-invalidate directive under device-side tracking, apply the
temporary disable, compute lrz.enabled, and collapse to the empty
directive when not enabled. -/
def lrzFinalize (g : GrasLrzCntl) (st : TuLrzState) (d t : Bool) :
    GrasLrzCntl × TuLrzState :=
  let st := if d = true then { st with valid := false } else st
  if d = true ∧ st.gpu_dir_tracking = true then
    ({ g with enable := true, dir := .invalid }, st)
  else
    let g := if t = true then { g with enable := false } else g
    let st := { st with enabled := st.valid && g.enable }
    let g := if st.enabled = false then GrasLrzCntl.zero else g
    (g, st)

/-- The main path of tu6_calculate_lrz_state (after the early returns):
build the initial directive, apply the write rules, the FS rule, the
compare-op switch, direction reconciliation and recording, the stencil
rules, and finalize. -/
def tu6_calculate_lrz_state_main (st : TuLrzState) (s : LrzDrawInput) :
    GrasLrzCntl × TuLrzState :=
  let g := applyLrzWriteDynamicRules (lrzInitialCntl st s) s
  let ft := lrzFsFlags st s
  let lrz_direction := lrzDirectionOf s.depth_compare_op
  let gdt := lrzOpAdjust g s.depth_compare_op s.z_write_enable ft.1 ft.2
  let dt := lrzDirMismatch st lrz_direction s.z_write_enable gdt.2.1 gdt.2.2
  let st1 := if s.z_write_enable = true ∧ lrz_direction ≠ .unknown then
               { st with prev_direction := lrz_direction }
             else st
  let gdt2 := lrzStencilAdjust gdt.1 s dt.1 dt.2
  lrzFinalize gdt2.1 st1 gdt2.2.1 gdt2.2.2

/-- tu6_calculate_lrz_state: the per-draw decision engine.  Returns the
GRAS_LRZ_CNTL directive and the updated tracker state. -/
def tu6_calculate_lrz_state (st : TuLrzState) (s : LrzDrawInput) :
    GrasLrzCntl × TuLrzState :=
  if st.valid = false then (GrasLrzCntl.zero, st)
  else if s.a_unused = true ∨ s.z_test_enable = false ∨ s.debug_nolrz = true then
    (GrasLrzCntl.zero, st)
  else if st.gpu_dir_tracking = false ∧ s.has_attachments = false then
    (GrasLrzCntl.zero, st)
  else
    tu6_calculate_lrz_state_main st s

/-- Folding the decision engine over a sequence of draws of one pass. -/
def lrzDrawSequence (st : TuLrzState) (draws : List LrzDrawInput) : TuLrzState :=
  draws.foldl (fun st s => (tu6_calculate_lrz_state st s).2) st

/-- A render-pass attachment, reduced to the fields the LRZ code reads:
whether the format has a depth aspect, whether the clear mask covers the
color/depth aspects, and whether the attachment is loaded. -/
structure TuRenderPassAttachment where
  format_has_depth : Bool := false
  clear_mask_color_depth : Bool := false
  load : Bool := false
deriving DecidableEq, Repr

/-- tu_lrz_init_state, acting on the tracker state (zeroed by the caller).
The device capability has_lrz_dir_tracking is passed explicitly. -/
def tu_lrz_init_state (st : TuLrzState) (has_gpu_tracking : Bool)
    (att : TuRenderPassAttachment) (view : TuImageView) : TuLrzState :=
  if view.image.lrz_height = 0 then st
  else
    let clears_depth := att.clear_mask_color_depth
    if has_gpu_tracking = false ∧ clears_depth = false then st
    else
      let st := { st with image_view := some view }
      if clears_depth = false ∧ att.load = false then st
      else
        { st with
          valid := true
          prev_direction := .unknown
          fast_clear := view.image.lrz_fc_size > 0
          gpu_dir_tracking := has_gpu_tracking
          reuse_previous_state := !clears_depth }

/-- tu_lrz_init_secondary, acting on the zeroed tracker state. -/
def tu_lrz_init_secondary (st : TuLrzState) (has_gpu_tracking : Bool)
    (debug_nolrz : Bool) (att : TuRenderPassAttachment) : TuLrzState :=
  if has_gpu_tracking = false then st
  else if debug_nolrz = true then st
  else if att.format_has_depth = false then st
  else
    { st with
      valid := true
      prev_direction := .unknown
      gpu_dir_tracking := has_gpu_tracking
      fast_clear := true
      image_view := none
      reuse_previous_state := false }

/-- One entry of the render pass attachment array together with the bound
image view and the recorded clear value for this attachment. -/
structure LrzAttachmentEntry where
  att : TuRenderPassAttachment := {}
  view : TuImageView := {}
  clear_value : Rat := 0
deriving DecidableEq, Repr

/-- tu_lrz_begin_resumed_renderpass: memset the tracker, find the first
attachment whose image has an LRZ buffer, run tu_lrz_init_state on it and
record the depth clear value / fast-clear eligibility when it is
cleared. -/
def tu_lrz_begin_resumed_renderpass (has_gpu_tracking : Bool)
    (atts : List LrzAttachmentEntry) : TuLrzState :=
  match atts.find? (fun e => e.view.image.lrz_height != 0) with
  | none => {}
  | some e =>
      let st := tu_lrz_init_state {} has_gpu_tracking e.att e.view
      if e.att.clear_mask_color_depth = true then
        { st with
          depth_clear_value := e.clear_value
          fast_clear := st.fast_clear &&
            (decide (e.clear_value = 0) || decide (e.clear_value = 1)) }
      else st

/-- tu_lrz_begin_secondary_cmdbuf: memset the tracker and initialize from
the subpass depth-stencil attachment when one is bound. -/
def tu_lrz_begin_secondary_cmdbuf (has_gpu_tracking : Bool)
    (debug_nolrz : Bool) (att : Option TuRenderPassAttachment) : TuLrzState :=
  match att with
  | none => {}
  | some a => tu_lrz_init_secondary {} has_gpu_tracking debug_nolrz a

/-- The allowed/not-allowed verdict of tu6_stencil_op_lrz_allowed for one
stencil face, separated from its lrz_write side effect. -/
def stencilOpAllowedB (func : VkCompareOp) (stencil_write : Bool) : Bool :=
  match func with
  | .never => true
  | _ => !stencil_write

/-- Whether the stencil interaction block leaves LRZ allowed: the
short-circuit conjunction over the front and back faces. -/
def lrzStencilAllowed (s : LrzDrawInput) : Bool :=
  stencilOpAllowedB s.stencil_front_compare_op s.stencil_front_write &&
  stencilOpAllowedB s.stencil_back_compare_op s.stencil_back_write

/-- Whether some rule other than the fragment-shader force-disable rule
triggers a full invalidate on this draw: depth write enabled together with
an Always/NotEqual compare op, a direction flip against the recorded
direction, or a disallowed stencil configuration. -/
def lrzOtherInvalidate (st : TuLrzState) (s : LrzDrawInput) : Bool :=
  s.z_write_enable &&
    ((decide (s.depth_compare_op = .always) || decide (s.depth_compare_op = .not_equal)) ||
     decide (st.prev_direction ≠ .unknown ∧
             lrzDirectionOf s.depth_compare_op ≠ .unknown ∧
             st.prev_direction ≠ lrzDirectionOf s.depth_compare_op) ||
     (s.stencil_test_enable && !lrzStencilAllowed s))

/-- The reuse precondition: reuse_previous_state is only set under
gpu_dir_tracking. -/
def lrzReuseInv (st : TuLrzState) : Prop :=
  st.reuse_previous_state = true → st.gpu_dir_tracking = true

/-- A GRAS_LRZ_DEPTH_VIEW write: either the deliberately invalid identity
(all-ones layer range / mip level) or a packed dword value. -/
inductive LrzDepthView where
  | invalidView
  | dword (n : Nat)
deriving DecidableEq, Repr

/-- The command-stream writes and cache events emitted by the lifecycle
code, kept at the semantic level. -/
inductive EmitCmd where
  | lrzBuffer (img : Option TuImage)
  | depthView (v : LrzDepthView)
  | lrzCntl (c : GrasLrzCntl)
  | lrzClearEvent
  | lrzFlushEvent
  | clearLrz (img : TuImage) (v : Rat)
  | dirtyFc (img : TuImage)
deriving DecidableEq, Repr

/-- tu6_disable_lrz_via_depth_view: disable the on-device direction by
writing an invalid depth view, then clear and flush the LRZ caches. -/
def tu6_disable_lrz_via_depth_view : List EmitCmd :=
  [.depthView .invalidView,
   .lrzCntl { enable := true, disable_on_wrong_dir := true },
   .lrzClearEvent,
   .lrzFlushEvent]

/-- tu_lrz_tiling_begin, as the sequence of emitted commands (the tracker
state is not mutated by it). -/
def tu_lrz_tiling_begin (st : TuLrzState) : List EmitCmd :=
  match st.image_view with
  | none => []
  | some view =>
      [.lrzBuffer (some view.image)] ++
      if st.reuse_previous_state = true then
        [.depthView (.dword view.gras_lrz_depth_view)]
      else
        let invalidate_lrz := !st.valid && st.gpu_dir_tracking
        (if invalidate_lrz = true then
          tu6_disable_lrz_via_depth_view ++ [.depthView (.dword 0)]
        else if st.fast_clear = true ∨ st.gpu_dir_tracking = true then
          (if st.gpu_dir_tracking = true then
            [.depthView (.dword view.gras_lrz_depth_view)]
          else []) ++
          [.lrzCntl { enable := true, fc_enable := st.fast_clear,
                      disable_on_wrong_dir := st.gpu_dir_tracking },
           .lrzClearEvent]
        else []) ++
        (if st.fast_clear = false ∧ invalidate_lrz = false then
          [.clearLrz view.image st.depth_clear_value] ++
          (if view.image.lrz_fc_size ≠ 0 then [.dirtyFc view.image] else [])
        else [])

/-- A pass with one LRZ-capable, fast-clear-capable depth attachment that
is neither cleared nor loaded (LOAD_OP_DONT_CARE). -/
def c4entry : LrzAttachmentEntry :=
  { att := { format_has_depth := true, clear_mask_color_depth := false,
             load := false },
    view := { image := { lrz_height := 1, lrz_fc_size := 1 },
              gras_lrz_depth_view := 7 },
    clear_value := 0 }

/-- A pass with one LRZ-capable depth attachment (without a fast-clear
buffer) that is neither cleared nor loaded. -/
def c10entry : LrzAttachmentEntry :=
  { att := { format_has_depth := true, clear_mask_color_depth := false,
             load := false },
    view := { image := { lrz_height := 1, lrz_fc_size := 0 },
              gras_lrz_depth_view := 7 },
    clear_value := 0 }

/-! Helper lemmas: projections preserved by each stage, and Boolean
characterizations of the disable / temporary-disable flags. -/

theorem stencilOp_snd (g : GrasLrzCntl) (f : VkCompareOp) (w : Bool) :
    (tu6_stencil_op_lrz_allowed g f w).2 = stencilOpAllowedB f w := by
  cases f <;> cases w <;> simp [tu6_stencil_op_lrz_allowed, stencilOpAllowedB]

theorem stencilOp_fst_enable (g : GrasLrzCntl) (f : VkCompareOp) (w : Bool) :
    (tu6_stencil_op_lrz_allowed g f w).1.enable = g.enable := by
  cases f <;> cases w <;> simp [tu6_stencil_op_lrz_allowed]

theorem stencilOp_fst_dowd (g : GrasLrzCntl) (f : VkCompareOp) (w : Bool) :
    (tu6_stencil_op_lrz_allowed g f w).1.disable_on_wrong_dir =
      g.disable_on_wrong_dir := by
  cases f <;> cases w <;> simp [tu6_stencil_op_lrz_allowed]

theorem applyDyn_enable (g : GrasLrzCntl) (s : LrzDrawInput) :
    (applyLrzWriteDynamicRules g s).enable = g.enable := by
  unfold applyLrzWriteDynamicRules
  split_ifs <;> simp

theorem applyDyn_dowd (g : GrasLrzCntl) (s : LrzDrawInput) :
    (applyLrzWriteDynamicRules g s).disable_on_wrong_dir =
      g.disable_on_wrong_dir := by
  unfold applyLrzWriteDynamicRules
  split_ifs <;> simp

theorem lrzFsFlags_eq (st : TuLrzState) (s : LrzDrawInput) :
    lrzFsFlags st s =
      (s.force_disable_lrz &&
         !decide (st.prev_direction ≠ .unknown ∨ st.gpu_dir_tracking = false),
       s.force_disable_lrz &&
         decide (st.prev_direction ≠ .unknown ∨ st.gpu_dir_tracking = false)) := by
  unfold lrzFsFlags
  by_cases h : st.prev_direction ≠ .unknown ∨ st.gpu_dir_tracking = false <;>
    cases hf : s.force_disable_lrz <;> simp [h, hf]

theorem lrzOpAdjust_snd (g : GrasLrzCntl) (op : VkCompareOp) (zw d t : Bool) :
    (lrzOpAdjust g op zw d t).2 =
      (d || (zw && (decide (op = .always) || decide (op = .not_equal))),
       t || ((!zw && (decide (op = .always) || decide (op = .not_equal))) ||
             (decide (op = .equal) || decide (op = .never)))) := by
  cases op <;> cases zw <;> simp [lrzOpAdjust]

theorem lrzOpAdjust_fst_enable (g : GrasLrzCntl) (op : VkCompareOp) (zw d t : Bool) :
    (lrzOpAdjust g op zw d t).1.enable = g.enable := by
  cases op <;> cases zw <;> simp [lrzOpAdjust]

theorem lrzOpAdjust_fst_dowd (g : GrasLrzCntl) (op : VkCompareOp) (zw d t : Bool) :
    (lrzOpAdjust g op zw d t).1.disable_on_wrong_dir = g.disable_on_wrong_dir := by
  cases op <;> cases zw <;> simp [lrzOpAdjust]

theorem lrzDirMismatch_eq (st : TuLrzState) (dir : TuLrzDirection) (zw d t : Bool) :
    lrzDirMismatch st dir zw d t =
      (d || (zw && decide (st.prev_direction ≠ .unknown ∧ dir ≠ .unknown ∧
                           st.prev_direction ≠ dir)),
       t || (!zw && decide (st.prev_direction ≠ .unknown ∧ dir ≠ .unknown ∧
                            st.prev_direction ≠ dir))) := by
  unfold lrzDirMismatch
  by_cases h : st.prev_direction ≠ .unknown ∧ dir ≠ .unknown ∧ st.prev_direction ≠ dir <;>
    cases zw <;> simp [h]

theorem lrzStencilAdjust_snd (g : GrasLrzCntl) (s : LrzDrawInput) (d t : Bool) :
    (lrzStencilAdjust g s d t).2 =
      (d || (!d && s.stencil_test_enable && !lrzStencilAllowed s && s.z_write_enable),
       t || (!d && s.stencil_test_enable && !lrzStencilAllowed s && !s.z_write_enable)) := by
  unfold lrzStencilAdjust lrzStencilAllowed
  cases hd : d <;> cases hst : s.stencil_test_enable <;>
    cases hzw : s.z_write_enable <;>
      simp [hd, hst, hzw, stencilOp_snd] <;>
      cases hf : stencilOpAllowedB s.stencil_front_compare_op s.stencil_front_write <;>
        cases hb : stencilOpAllowedB s.stencil_back_compare_op s.stencil_back_write <;>
          simp [hf, hb, stencilOp_snd]

theorem lrzStencilAdjust_fst_enable (g : GrasLrzCntl) (s : LrzDrawInput) (d t : Bool) :
    (lrzStencilAdjust g s d t).1.enable = g.enable := by
  unfold lrzStencilAdjust
  by_cases h1 : d = false ∧ s.stencil_test_enable = true
  · rw [if_pos h1]
    cases hf : (tu6_stencil_op_lrz_allowed g s.stencil_front_compare_op
        s.stencil_front_write).2 <;>
      simp only [hf] <;> split_ifs <;> simp_all [stencilOp_fst_enable]
  · rw [if_neg h1]

theorem lrzStencilAdjust_fst_dowd (g : GrasLrzCntl) (s : LrzDrawInput) (d t : Bool) :
    (lrzStencilAdjust g s d t).1.disable_on_wrong_dir = g.disable_on_wrong_dir := by
  unfold lrzStencilAdjust
  by_cases h1 : d = false ∧ s.stencil_test_enable = true
  · rw [if_pos h1]
    cases hf : (tu6_stencil_op_lrz_allowed g s.stencil_front_compare_op
        s.stencil_front_write).2 <;>
      simp only [hf] <;> split_ifs <;> simp_all [stencilOp_fst_dowd]
  · rw [if_neg h1]

theorem lrzFinalize_snd_valid (g : GrasLrzCntl) (st : TuLrzState) (d t : Bool) :
    (lrzFinalize g st d t).2.valid = (!d && st.valid) := by
  cases d <;> cases hg : st.gpu_dir_tracking <;> simp [lrzFinalize, hg]

theorem lrzFinalize_snd_prev (g : GrasLrzCntl) (st : TuLrzState) (d t : Bool) :
    (lrzFinalize g st d t).2.prev_direction = st.prev_direction := by
  cases d <;> cases hg : st.gpu_dir_tracking <;> simp [lrzFinalize, hg]

theorem lrzFinalize_snd_reuse (g : GrasLrzCntl) (st : TuLrzState) (d t : Bool) :
    (lrzFinalize g st d t).2.reuse_previous_state = st.reuse_previous_state := by
  cases d <;> cases hg : st.gpu_dir_tracking <;> simp [lrzFinalize, hg]

theorem lrzFinalize_snd_gpu (g : GrasLrzCntl) (st : TuLrzState) (d t : Bool) :
    (lrzFinalize g st d t).2.gpu_dir_tracking = st.gpu_dir_tracking := by
  cases d <;> cases hg : st.gpu_dir_tracking <;> simp [lrzFinalize, hg]

theorem lrzFinalize_temp (g : GrasLrzCntl) (st : TuLrzState) :
    lrzFinalize g st false true = (GrasLrzCntl.zero, { st with enabled := false }) := by
  simp [lrzFinalize]

theorem lrzFinalize_gpu_invalid (g : GrasLrzCntl) (st : TuLrzState) (t : Bool)
    (h : st.gpu_dir_tracking = true) :
    lrzFinalize g st true t =
      ({ g with enable := true, dir := .invalid }, { st with valid := false }) := by
  simp [lrzFinalize, h]

theorem lrzFinalize_noGpu_fst (g : GrasLrzCntl) (st : TuLrzState) (t : Bool)
    (h : st.gpu_dir_tracking = false) :
    (lrzFinalize g st true t).1 = GrasLrzCntl.zero := by
  cases t <;> simp [lrzFinalize, h]

theorem calc_not_valid (st : TuLrzState) (s : LrzDrawInput) (h : st.valid = false) :
    tu6_calculate_lrz_state st s = (GrasLrzCntl.zero, st) := by
  simp [tu6_calculate_lrz_state, h]

theorem calc_main_eq (st : TuLrzState) (s : LrzDrawInput) (h1 : st.valid = true)
    (h2 : ¬(s.a_unused = true ∨ s.z_test_enable = false ∨ s.debug_nolrz = true))
    (h3 : ¬(st.gpu_dir_tracking = false ∧ s.has_attachments = false)) :
    tu6_calculate_lrz_state st s = tu6_calculate_lrz_state_main st s := by
  rw [tu6_calculate_lrz_state, if_neg (by simp [h1]), if_neg h2, if_neg h3]

theorem calc_snd_reuse (st : TuLrzState) (s : LrzDrawInput) :
    ((tu6_calculate_lrz_state st s).2).reuse_previous_state =
      st.reuse_previous_state := by
  unfold tu6_calculate_lrz_state
  split_ifs
  · rfl
  · rfl
  · rfl
  · simp only [tu6_calculate_lrz_state_main, lrzFinalize_snd_reuse]
    split_ifs <;> rfl

theorem calc_snd_gpu (st : TuLrzState) (s : LrzDrawInput) :
    ((tu6_calculate_lrz_state st s).2).gpu_dir_tracking = st.gpu_dir_tracking := by
  unfold tu6_calculate_lrz_state
  split_ifs
  · rfl
  · rfl
  · rfl
  · simp only [tu6_calculate_lrz_state_main, lrzFinalize_snd_gpu]
    split_ifs <;> rfl

theorem lrzFinalize_enable_cases (g : GrasLrzCntl) (st : TuLrzState) (d t : Bool)
    (h : d = true ∨ t = true) :
    (lrzFinalize g st d t).1.enable = false ∨
    ((lrzFinalize g st d t).1.dir = .invalid ∧ (lrzFinalize g st d t).2.valid = false) := by
  cases d <;> cases t <;> cases hg : st.gpu_dir_tracking <;>
    simp_all [lrzFinalize, GrasLrzCntl.zero]

theorem lrzStencilAdjust_forces (s : LrzDrawInput) (hst : s.stencil_test_enable = true)
    (hAL : lrzStencilAllowed s = false) (g : GrasLrzCntl) (d t : Bool) :
    (lrzStencilAdjust g s d t).2.1 = true ∨ (lrzStencilAdjust g s d t).2.2 = true := by
  have h := lrzStencilAdjust_snd g s d t
  cases d <;> cases t <;> cases hzw : s.z_write_enable <;>
    simp_all [hst, hAL]

/-! Claim theorems. -/

/-- Claim C1: monotonic invalidation.  A single decision-engine call never
turns valid from false back to true, and hence along any sequence of
per-draw decision-engine invocations within one pass, once valid is false
it stays false. -/
theorem C1_monotonic_invalidation :
    (∀ (st : TuLrzState) (s : LrzDrawInput), st.valid = false →
       ((tu6_calculate_lrz_state st s).2).valid = false) ∧
    (∀ (st : TuLrzState) (draws : List LrzDrawInput), st.valid = false →
       (lrzDrawSequence st draws).valid = false) := by
  have h1 : ∀ (st : TuLrzState) (s : LrzDrawInput), st.valid = false →
      ((tu6_calculate_lrz_state st s).2).valid = false := by
    intro st s h
    rw [calc_not_valid st s h]
    exact h
  refine ⟨h1, ?_⟩
  intro st draws
  induction draws generalizing st with
  | nil => intro h; simpa [lrzDrawSequence] using h
  | cons a as ih =>
      intro h
      have h2 := h1 st a h
      simpa [lrzDrawSequence] using ih _ h2

theorem C1_monotonic_invalidation_witness :
    ((tu6_calculate_lrz_state ({} : TuLrzState) ({} : LrzDrawInput)).2).valid = false ∧
    (lrzDrawSequence ({} : TuLrzState) [{}, {}]).valid = false :=
  ⟨C1_monotonic_invalidation.1 {} {} rfl,
   C1_monotonic_invalidation.2 {} [{}, {}] rfl⟩

/-- Claim C3: the recorded direction changes only on a draw with depth
write enabled whose compare op yields a concrete direction; in particular
with depth write disabled the recorded direction is unchanged by the
decision-engine call. -/
theorem C3_direction_update_rule (st : TuLrzState) (s : LrzDrawInput) :
    ((tu6_calculate_lrz_state st s).2.prev_direction ≠ st.prev_direction →
       s.z_write_enable = true ∧ lrzDirectionOf s.depth_compare_op ≠ .unknown) ∧
    (s.z_write_enable = false →
       (tu6_calculate_lrz_state st s).2.prev_direction = st.prev_direction) := by
  have key : (tu6_calculate_lrz_state st s).2.prev_direction = st.prev_direction ∨
      (s.z_write_enable = true ∧ lrzDirectionOf s.depth_compare_op ≠ .unknown) := by
    unfold tu6_calculate_lrz_state
    split_ifs
    · left; rfl
    · left; rfl
    · left; rfl
    · simp only [tu6_calculate_lrz_state_main, lrzFinalize_snd_prev]
      by_cases hc : s.z_write_enable = true ∧ lrzDirectionOf s.depth_compare_op ≠ .unknown
      · right; exact hc
      · rw [if_neg hc]; left; rfl
  constructor
  · intro hne
    rcases key with h | h
    · exact absurd h hne
    · exact h
  · intro hz
    rcases key with h | h
    · exact h
    · rw [hz] at h
      exact absurd h.1 (by simp)

theorem C3_direction_update_rule_witness :
    (tu6_calculate_lrz_state ({ valid := true } : TuLrzState)
        ({ z_test_enable := true, z_write_enable := false } : LrzDrawInput)).2.prev_direction =
      ({ valid := true } : TuLrzState).prev_direction :=
  (C3_direction_update_rule { valid := true }
    { z_test_enable := true, z_write_enable := false }).2 rfl

/-- Claim C6: if the tracker is invalid, or there is no depth attachment,
or depth test is disabled, or the LRZ-off debug override is set, the
decision engine returns the empty directive and leaves the tracker state
entirely unchanged. -/
theorem C6_empty_directive_early_exit (st : TuLrzState) (s : LrzDrawInput)
    (h : st.valid = false ∨ s.a_unused = true ∨ s.z_test_enable = false ∨
         s.debug_nolrz = true) :
    tu6_calculate_lrz_state st s = (GrasLrzCntl.zero, st) := by
  rcases h with h | h
  · exact calc_not_valid st s h
  · by_cases hv : st.valid = false
    · exact calc_not_valid st s hv
    · rw [tu6_calculate_lrz_state, if_neg hv, if_pos h]

theorem C6_empty_directive_early_exit_witness :
    tu6_calculate_lrz_state ({ valid := true } : TuLrzState)
        ({ a_unused := true, z_test_enable := true } : LrzDrawInput) =
      (GrasLrzCntl.zero, { valid := true }) :=
  C6_empty_directive_early_exit { valid := true }
    { a_unused := true, z_test_enable := true } (Or.inr (Or.inl rfl))

/-- Claim C9: the reuse precondition.  Every tracker state produced by
pass/secondary initialization or by a decision-engine call satisfies:
reuse_previous_state implies gpu_dir_tracking; the combination
reuse_previous_state and no device-side tracking is unreachable. -/
theorem C9_reuse_precondition :
    (∀ (st : TuLrzState) (gpu : Bool) (att : TuRenderPassAttachment)
       (view : TuImageView),
       lrzReuseInv st → lrzReuseInv (tu_lrz_init_state st gpu att view)) ∧
    (∀ (st : TuLrzState) (gpu nolrz : Bool) (att : TuRenderPassAttachment),
       lrzReuseInv st → lrzReuseInv (tu_lrz_init_secondary st gpu nolrz att)) ∧
    (∀ (gpu : Bool) (atts : List LrzAttachmentEntry),
       lrzReuseInv (tu_lrz_begin_resumed_renderpass gpu atts)) ∧
    (∀ (gpu nolrz : Bool) (att : Option TuRenderPassAttachment),
       lrzReuseInv (tu_lrz_begin_secondary_cmdbuf gpu nolrz att)) ∧
    (∀ (st : TuLrzState) (s : LrzDrawInput),
       lrzReuseInv st → lrzReuseInv ((tu6_calculate_lrz_state st s).2)) := by
  have hinit : ∀ (st : TuLrzState) (gpu : Bool) (att : TuRenderPassAttachment)
      (view : TuImageView),
      lrzReuseInv st → lrzReuseInv (tu_lrz_init_state st gpu att view) := by
    intro st gpu att view hinv
    simp only [tu_lrz_init_state]
    split_ifs with h1 h2 h3
    · exact hinv
    · exact hinv
    · exact fun hr => hinv hr
    · intro hr
      cases hg : gpu
      · cases hc : att.clear_mask_color_depth
        · exact absurd ⟨hg, hc⟩ h2
        · simp [hc] at hr
      · rfl
  have hsec : ∀ (st : TuLrzState) (gpu nolrz : Bool) (att : TuRenderPassAttachment),
      lrzReuseInv st → lrzReuseInv (tu_lrz_init_secondary st gpu nolrz att) := by
    intro st gpu nolrz att hinv
    unfold tu_lrz_init_secondary
    split_ifs with h1 h2 h3
    · exact hinv
    · exact hinv
    · exact hinv
    · unfold lrzReuseInv
      intro hr
      simp at hr
  refine ⟨hinit, hsec, ?_, ?_, ?_⟩
  · intro gpu atts
    unfold tu_lrz_begin_resumed_renderpass
    cases hfind : atts.find? (fun e => e.view.image.lrz_height != 0) with
    | none => intro hr; simp at hr
    | some e =>
        have h0 := hinit {} gpu e.att e.view (by intro hr; simp at hr)
        dsimp only
        split_ifs with hc
        · exact fun hr => h0 hr
        · exact h0
  · intro gpu nolrz att
    cases att with
    | none => intro hr; simp [tu_lrz_begin_secondary_cmdbuf] at hr
    | some a =>
        exact hsec {} gpu nolrz a (by intro hr; simp at hr)
  · intro st s hinv
    unfold lrzReuseInv
    rw [calc_snd_reuse, calc_snd_gpu]
    exact hinv

/-- Claim C2: direction flip triggers invalidate-or-suspend.  With
direction Less recorded and a Greater-compare draw processed by the
engine: depth write enabled makes the tracker invalid; depth write
disabled keeps the tracker valid while the directive of that draw collapses to
the empty directive (test enable off). -/
theorem C2_direction_flip (st : TuLrzState) (s : LrzDrawInput)
    (hv : st.valid = true) (hp : st.prev_direction = .less)
    (hop : s.depth_compare_op = .greater)
    (ha : s.a_unused = false) (hz : s.z_test_enable = true)
    (hn : s.debug_nolrz = false)
    (hg : st.gpu_dir_tracking = true ∨ s.has_attachments = true) :
    (s.z_write_enable = true → ((tu6_calculate_lrz_state st s).2).valid = false) ∧
    (s.z_write_enable = false → ((tu6_calculate_lrz_state st s).2).valid = true ∧
       (tu6_calculate_lrz_state st s).1 = GrasLrzCntl.zero) := by
  have hmain := calc_main_eq st s hv (by simp [ha, hz, hn])
    (by rcases hg with h | h <;> simp [h])
  constructor
  · intro hw
    rw [hmain]
    simp [tu6_calculate_lrz_state_main, lrzFsFlags_eq, lrzOpAdjust_snd,
          lrzDirMismatch_eq, lrzStencilAdjust_snd, lrzFinalize_snd_valid,
          hp, hop, hw, lrzDirectionOf]
  · intro hw
    rw [hmain]
    simp [tu6_calculate_lrz_state_main, lrzFsFlags_eq, lrzOpAdjust_snd,
          lrzDirMismatch_eq, lrzStencilAdjust_snd, lrzFinalize_temp,
          hp, hop, hw, hv, lrzDirectionOf]

theorem C2_direction_flip_witness :
    (((tu6_calculate_lrz_state
        ({ valid := true, prev_direction := .less, gpu_dir_tracking := true } : TuLrzState)
        ({ z_test_enable := true, z_write_enable := true,
           depth_compare_op := .greater } : LrzDrawInput)).2).valid = false) ∧
    (((tu6_calculate_lrz_state
        ({ valid := true, prev_direction := .less, gpu_dir_tracking := true } : TuLrzState)
        ({ z_test_enable := true, z_write_enable := false,
           depth_compare_op := .greater } : LrzDrawInput)).2).valid = true ∧
      (tu6_calculate_lrz_state
        ({ valid := true, prev_direction := .less, gpu_dir_tracking := true } : TuLrzState)
        ({ z_test_enable := true, z_write_enable := false,
           depth_compare_op := .greater } : LrzDrawInput)).1 = GrasLrzCntl.zero) :=
  ⟨(C2_direction_flip { valid := true, prev_direction := .less, gpu_dir_tracking := true }
      { z_test_enable := true, z_write_enable := true, depth_compare_op := .greater }
      rfl rfl rfl rfl rfl rfl (Or.inl rfl)).1 rfl,
   (C2_direction_flip { valid := true, prev_direction := .less, gpu_dir_tracking := true }
      { z_test_enable := true, z_write_enable := false, depth_compare_op := .greater }
      rfl rfl rfl rfl rfl rfl (Or.inl rfl)).2 rfl⟩

/-- Claim C7: explicit invalidation directive under device-side tracking.
Whenever a decision-engine call on a valid tracker with gpu_dir_tracking
leaves the tracker invalid, the returned directive still has enable true,
dir Invalid and disable_on_wrong_dir true. -/
theorem C7_explicit_invalidation_directive (st : TuLrzState) (s : LrzDrawInput)
    (hg : st.gpu_dir_tracking = true) (hv : st.valid = true)
    (hinv : ((tu6_calculate_lrz_state st s).2).valid = false) :
    (tu6_calculate_lrz_state st s).1.enable = true ∧
    (tu6_calculate_lrz_state st s).1.dir = .invalid ∧
    (tu6_calculate_lrz_state st s).1.disable_on_wrong_dir = true := by
  have hne : ¬ st.valid = false := by simp [hv]
  by_cases h2 : s.a_unused = true ∨ s.z_test_enable = false ∨ s.debug_nolrz = true
  · rw [tu6_calculate_lrz_state, if_neg hne, if_pos h2] at hinv
    exact absurd hinv (by simp [hv])
  · have h3 : ¬(st.gpu_dir_tracking = false ∧ s.has_attachments = false) := by
      simp [hg]
    have hmain := calc_main_eq st s hv h2 h3
    rw [hmain] at hinv ⊢
    simp only [tu6_calculate_lrz_state_main] at hinv ⊢
    rw [lrzFinalize_snd_valid] at hinv
    have hst1 : (if s.z_write_enable = true ∧
          lrzDirectionOf s.depth_compare_op ≠ .unknown then
          { st with prev_direction := lrzDirectionOf s.depth_compare_op }
        else st).valid = true := by
      split_ifs <;> simp [hv]
    rw [hst1] at hinv
    rw [Bool.and_true] at hinv
    have hbool : ∀ b : Bool, (!b) = false → b = true := by decide
    rw [hbool _ hinv]
    have hst1g : (if s.z_write_enable = true ∧
          lrzDirectionOf s.depth_compare_op ≠ .unknown then
          { st with prev_direction := lrzDirectionOf s.depth_compare_op }
        else st).gpu_dir_tracking = true := by
      split_ifs <;> simp [hg]
    rw [lrzFinalize_gpu_invalid _ _ _ hst1g]
    refine ⟨rfl, rfl, ?_⟩
    simp [lrzStencilAdjust_fst_dowd, lrzOpAdjust_fst_dowd, applyDyn_dowd,
          lrzInitialCntl, hg]

theorem C7_explicit_invalidation_directive_witness :
    (tu6_calculate_lrz_state
        ({ valid := true, gpu_dir_tracking := true } : TuLrzState)
        ({ z_test_enable := true, z_write_enable := true,
           depth_compare_op := .always } : LrzDrawInput)).1.enable = true ∧
    (tu6_calculate_lrz_state
        ({ valid := true, gpu_dir_tracking := true } : TuLrzState)
        ({ z_test_enable := true, z_write_enable := true,
           depth_compare_op := .always } : LrzDrawInput)).1.dir = .invalid ∧
    (tu6_calculate_lrz_state
        ({ valid := true, gpu_dir_tracking := true } : TuLrzState)
        ({ z_test_enable := true, z_write_enable := true,
           depth_compare_op := .always } : LrzDrawInput)).1.disable_on_wrong_dir = true :=
  C7_explicit_invalidation_directive
    { valid := true, gpu_dir_tracking := true }
    { z_test_enable := true, z_write_enable := true, depth_compare_op := .always }
    rfl rfl (by decide)

/-- Claim C5 counterexample: a fragment-shader side-effect draw with the
recorded direction still Unknown does NOT fully invalidate the tracker
when device-side tracking is off — the code only temporarily disables
LRZ, so valid stays true, contradicting the claim text "if the recorded
direction is still Unknown it fully invalidates the tracker". -/
theorem C5_fs_side_effect_counterexample :
    ((tu6_calculate_lrz_state
        ({ valid := true, prev_direction := .unknown,
           gpu_dir_tracking := false } : TuLrzState)
        ({ z_test_enable := true, force_disable_lrz := true,
           has_attachments := true, depth_compare_op := .less } : LrzDrawInput)).2).valid
      = true := by decide

/-- Claim C5 (amended): for a draw flagged with fragment-shader side
effects, the engine fully invalidates only when the recorded direction is
Unknown AND device-side tracking is enabled; when the direction is
concrete or tracking is off, the rule only temporarily disables this
draw: provided no other rule invalidates, the valid field of the tracker is
unchanged and the directive collapses to empty. -/
theorem C5_fs_side_effect_amended (st : TuLrzState) (s : LrzDrawInput)
    (hv : st.valid = true) (hf : s.force_disable_lrz = true)
    (ha : s.a_unused = false) (hz : s.z_test_enable = true)
    (hn : s.debug_nolrz = false) :
    ((st.prev_direction = .unknown ∧ st.gpu_dir_tracking = true) →
       ((tu6_calculate_lrz_state st s).2).valid = false) ∧
    (((st.prev_direction ≠ .unknown ∨ st.gpu_dir_tracking = false) ∧
      (st.gpu_dir_tracking = true ∨ s.has_attachments = true) ∧
      lrzOtherInvalidate st s = false) →
       ((tu6_calculate_lrz_state st s).2).valid = st.valid ∧
       (tu6_calculate_lrz_state st s).1 = GrasLrzCntl.zero) := by
  constructor
  · rintro ⟨hp, hgpu⟩
    have hmain := calc_main_eq st s hv (by simp [ha, hz, hn]) (by simp [hgpu])
    rw [hmain]
    simp [tu6_calculate_lrz_state_main, lrzFsFlags_eq, lrzOpAdjust_snd,
          lrzDirMismatch_eq, lrzStencilAdjust_snd, lrzFinalize_snd_valid,
          hf, hp, hgpu]
  · rintro ⟨hcase, hg3, hother⟩
    have hmain := calc_main_eq st s hv (by simp [ha, hz, hn])
      (by rcases hg3 with h | h <;> simp [h])
    rw [hmain]
    have hP : decide (st.prev_direction ≠ .unknown ∨ st.gpu_dir_tracking = false)
        = true := by
      rcases hcase with h | h <;> simp [h]
    cases hzw : s.z_write_enable
    · simp [tu6_calculate_lrz_state_main, lrzFsFlags_eq, lrzOpAdjust_snd,
            lrzDirMismatch_eq, lrzStencilAdjust_snd, lrzFinalize_temp,
            hf, hzw, hP, hv]
    · simp only [lrzOtherInvalidate, hzw, Bool.true_and] at hother
      have hsplit : ∀ a b c : Bool, ((a || b) || c) = false →
          a = false ∧ b = false ∧ c = false := by decide
      obtain ⟨hA, hM, hS⟩ := hsplit _ _ _ hother
      simp [tu6_calculate_lrz_state_main, lrzFsFlags_eq, lrzOpAdjust_snd,
            lrzDirMismatch_eq, lrzStencilAdjust_snd, lrzFinalize_temp,
            hf, hzw, hP, hv, hA, hM, hS, apply_ite]

theorem C5_fs_side_effect_amended_witness :
    (((tu6_calculate_lrz_state
        ({ valid := true, prev_direction := .unknown,
           gpu_dir_tracking := true } : TuLrzState)
        ({ z_test_enable := true, force_disable_lrz := true,
           depth_compare_op := .less } : LrzDrawInput)).2).valid = false) ∧
    ((((tu6_calculate_lrz_state
        ({ valid := true, prev_direction := .less,
           gpu_dir_tracking := true } : TuLrzState)
        ({ z_test_enable := true, z_write_enable := false,
           force_disable_lrz := true,
           depth_compare_op := .less } : LrzDrawInput)).2).valid =
      ({ valid := true, prev_direction := .less,
         gpu_dir_tracking := true } : TuLrzState).valid) ∧
      (tu6_calculate_lrz_state
        ({ valid := true, prev_direction := .less,
           gpu_dir_tracking := true } : TuLrzState)
        ({ z_test_enable := true, z_write_enable := false,
           force_disable_lrz := true,
           depth_compare_op := .less } : LrzDrawInput)).1 = GrasLrzCntl.zero) :=
  ⟨(C5_fs_side_effect_amended
      { valid := true, prev_direction := .unknown, gpu_dir_tracking := true }
      { z_test_enable := true, force_disable_lrz := true, depth_compare_op := .less }
      rfl rfl rfl rfl rfl).1 ⟨rfl, rfl⟩,
   (C5_fs_side_effect_amended
      { valid := true, prev_direction := .less, gpu_dir_tracking := true }
      { z_test_enable := true, z_write_enable := false, force_disable_lrz := true,
        depth_compare_op := .less }
      rfl rfl rfl rfl rfl).2 ⟨Or.inl (by decide), Or.inl rfl, by decide⟩⟩

/-- Claim C8 counterexample: a draw with stencil test enabled, front
compare op Always and front stencil write enabled, but with depth write
enabled on a valid tracker with device-side tracking, produces a
directive whose test-enable flag is TRUE (the explicit invalidate
directive), contradicting the claim text "test-enable false regardless of
the depth configuration". -/
theorem C8_stencil_write_counterexample :
    (tu6_calculate_lrz_state
        ({ valid := true, gpu_dir_tracking := true } : TuLrzState)
        ({ z_test_enable := true, z_write_enable := true,
           depth_compare_op := .less, stencil_test_enable := true,
           stencil_front_compare_op := .always,
           stencil_front_write := true } : LrzDrawInput)).1.enable = true := by
  decide

/-- Claim C8 (amended): a draw with stencil test enabled and an
Always-compare, stencil-writing face never runs the LRZ test normally:
either the directive collapses with test-enable false, or (when a full
invalidate is committed under device-side tracking) it is the explicit
invalidate directive with dir Invalid and the tracker left invalid. -/
theorem C8_stencil_write_no_early_test_amended (st : TuLrzState) (s : LrzDrawInput)
    (hst : s.stencil_test_enable = true)
    (hface : (s.stencil_front_compare_op = .always ∧ s.stencil_front_write = true) ∨
             (s.stencil_back_compare_op = .always ∧ s.stencil_back_write = true)) :
    (tu6_calculate_lrz_state st s).1.enable = false ∨
    ((tu6_calculate_lrz_state st s).1.dir = .invalid ∧
     ((tu6_calculate_lrz_state st s).2).valid = false) := by
  have hAL : lrzStencilAllowed s = false := by
    rcases hface with ⟨h1, h2⟩ | ⟨h1, h2⟩ <;>
      simp [lrzStencilAllowed, stencilOpAllowedB, h1, h2]
  by_cases hv : st.valid = false
  · rw [calc_not_valid st s hv]; left; rfl
  by_cases h2 : s.a_unused = true ∨ s.z_test_enable = false ∨ s.debug_nolrz = true
  · rw [tu6_calculate_lrz_state, if_neg hv, if_pos h2]; left; rfl
  by_cases h3 : st.gpu_dir_tracking = false ∧ s.has_attachments = false
  · rw [tu6_calculate_lrz_state, if_neg hv, if_neg h2, if_pos h3]; left; rfl
  have hv' : st.valid = true := by
    cases hb : st.valid
    · exact absurd hb hv
    · rfl
  have hmain := calc_main_eq st s hv' h2 h3
  rw [hmain]
  simp only [tu6_calculate_lrz_state_main]
  exact lrzFinalize_enable_cases _ _ _ _ (lrzStencilAdjust_forces s hst hAL _ _ _)

theorem C8_stencil_write_no_early_test_amended_witness :
    (tu6_calculate_lrz_state
        ({ valid := true, gpu_dir_tracking := true } : TuLrzState)
        ({ z_test_enable := true, z_write_enable := true,
           depth_compare_op := .less, stencil_test_enable := true,
           stencil_front_compare_op := .always,
           stencil_front_write := true } : LrzDrawInput)).1.enable = false ∨
    ((tu6_calculate_lrz_state
        ({ valid := true, gpu_dir_tracking := true } : TuLrzState)
        ({ z_test_enable := true, z_write_enable := true,
           depth_compare_op := .less, stencil_test_enable := true,
           stencil_front_compare_op := .always,
           stencil_front_write := true } : LrzDrawInput)).1.dir = .invalid ∧
     ((tu6_calculate_lrz_state
        ({ valid := true, gpu_dir_tracking := true } : TuLrzState)
        ({ z_test_enable := true, z_write_enable := true,
           depth_compare_op := .less, stencil_test_enable := true,
           stencil_front_compare_op := .always,
           stencil_front_write := true } : LrzDrawInput)).2).valid = false) :=
  C8_stencil_write_no_early_test_amended
    { valid := true, gpu_dir_tracking := true }
    { z_test_enable := true, z_write_enable := true, depth_compare_op := .less,
      stencil_test_enable := true, stencil_front_compare_op := .always,
      stencil_front_write := true }
    rfl (Or.inl ⟨rfl, rfl⟩)

theorem C9_reuse_precondition_witness :
    lrzReuseInv (tu_lrz_init_state ({} : TuLrzState) true
      ({ format_has_depth := true } : TuRenderPassAttachment)
      ({ image := { lrz_height := 1 } } : TuImageView)) :=
  C9_reuse_precondition.1 {} true { format_has_depth := true }
    { image := { lrz_height := 1 } } (by intro hr; simp at hr)

/-- Claim C4 counterexample: with a fast-clear-capable attachment that is
neither cleared nor loaded, the pass-begin code leaves fast_clear false
even though the image supports fast-clear and no clear value was
recorded, so the claimed "if and only if" fails in the right-to-left
direction. -/
theorem C4_fast_clear_counterexample :
    ¬ (((tu_lrz_begin_resumed_renderpass true [c4entry]).fast_clear = true) ↔
        (c4entry.view.image.lrz_fc_size > 0 ∧
         (c4entry.att.clear_mask_color_depth = true →
            (c4entry.clear_value = 0 ∨ c4entry.clear_value = 1)))) := by
  decide

/-- Claim C4 (amended): after a render-pass begin whose first LRZ-capable
attachment is e, the fast-clear flag of the tracker is true iff the image
supports fast-clear, the tracker was actually activated (the attachment
is cleared, or device-side tracking is available and the attachment is
loaded), and, when the attachment is cleared, the recorded clear value is
exactly 0 or 1. -/
theorem C4_fast_clear_eligibility_amended (has_gpu : Bool)
    (atts : List LrzAttachmentEntry) (e : LrzAttachmentEntry)
    (hfind : atts.find? (fun x => x.view.image.lrz_height != 0) = some e) :
    ((tu_lrz_begin_resumed_renderpass has_gpu atts).fast_clear = true ↔
      (e.view.image.lrz_fc_size > 0 ∧
       (e.att.clear_mask_color_depth = true ∨
        (has_gpu = true ∧ e.att.load = true)) ∧
       (e.att.clear_mask_color_depth = true →
          (e.clear_value = 0 ∨ e.clear_value = 1)))) := by
  have hh : ¬ e.view.image.lrz_height = 0 := by
    have h := List.find?_some hfind
    simpa using h
  unfold tu_lrz_begin_resumed_renderpass
  rw [hfind]
  dsimp only
  cases hc : e.att.clear_mask_color_depth <;>
  cases hgpu : has_gpu <;>
  cases hl : e.att.load <;>
    simp [tu_lrz_init_state, hh, hc, hgpu, hl]

theorem C4_fast_clear_eligibility_amended_witness :
    ((tu_lrz_begin_resumed_renderpass true [c4entry]).fast_clear = true ↔
      (c4entry.view.image.lrz_fc_size > 0 ∧
       (c4entry.att.clear_mask_color_depth = true ∨
        (true = true ∧ c4entry.att.load = true)) ∧
       (c4entry.att.clear_mask_color_depth = true →
          (c4entry.clear_value = 0 ∨ c4entry.clear_value = 1)))) :=
  C4_fast_clear_eligibility_amended true [c4entry] c4entry rfl

/-- Claim C10: evaluation of the code at the claimed scenario.  With a
single LRZ-capable depth attachment that is neither cleared nor loaded
and device-side tracking available, pass begin does set the attachment
image view while valid stays false, exactly as claimed; but because
tu_lrz_init_state assigns gpu_dir_tracking only after the
"neither cleared nor loaded" early return, the field
gpu_dir_tracking stays false, so tile-pass begin takes the value-clear
path (emitting a full LRZ clear with the never-recorded clear value 0)
instead of the claimed explicit disable-via-invalid-depth-view
sequence. -/
theorem C10_dontcare_tiling_begin_behavior :
    ((tu_lrz_begin_resumed_renderpass true [c10entry]).image_view =
        some c10entry.view) ∧
    ((tu_lrz_begin_resumed_renderpass true [c10entry]).valid = false) ∧
    ((tu_lrz_begin_resumed_renderpass true [c10entry]).gpu_dir_tracking = false) ∧
    (tu_lrz_tiling_begin (tu_lrz_begin_resumed_renderpass true [c10entry]) =
      [.lrzBuffer (some c10entry.view.image),
       .clearLrz c10entry.view.image 0]) :=
  ⟨rfl, rfl, rfl, rfl⟩

end TuLrz
